/-
Verification of the zillow-scraper extraction pipeline.

The development shallowly embeds the Python sources of the repository:
  * models.py      : the record shapes (PropertyData, PropertyDetail and its sub-records)
  * parsers.py     : ZillowExactParser, ZillowPropertyDetailParser, ZillowComprehensiveDetailParser
  * browsers.py    : SmartScrollerBrowser (scroll loop and fetch_source)
  * api.py         : _execute_property_detail_fetch (the resolution orchestrator)

External collaborators (the BeautifulSoup parse-tree library and the Selenium
driver) are modelled as capabilities, exactly as the specification scopes them:
HTML is represented by an already-built parse tree (the Node type below, with
the BeautifulSoup query primitives find / find_all / get_text reimplemented
over it), and the browser driver is an oracle environment supplying the
outcome of each navigation / script / element-lookup call.  The ambient clock
(datetime.now().isoformat() in models.py) is passed in as an explicit string
parameter.
-/
import Mathlib

namespace ZS

/-! ## Python string primitives used by the sources -/

/-- Occurrence scan over character lists: whether pat occurs in the list. -/
def listContainsSub (pat : List Char) : List Char → Bool
  | [] => pat.isEmpty
  | c :: cs => pat.isPrefixOf (c :: cs) || listContainsSub pat cs

/-- Python substring containment, the expression written as pat in s. -/
def containsSub (s pat : String) : Bool :=
  listContainsSub pat.data s.data

/-- Python str.startswith(pre). -/
def pyStartsWith (s pre : String) : Bool :=
  pre.data.isPrefixOf s.data

/-- Python str.split() with no argument: split on whitespace runs, dropping
empty pieces. -/
def pySplit (s : String) : List String :=
  (s.split Char.isWhitespace).filter (fun p => p != "")

/-- Python str.strip(): drops leading and trailing whitespace. -/
def pyStrip (s : String) : String := s.trim

/-- Python int(s) for the decimal strings this code base feeds it:
surrounding whitespace is ignored, an optional sign then digits. -/
def pyInt? (s : String) : Option Int := s.trim.toInt?

/-- Value of a decimal numeral made of an integer part and a fractional part,
as an exact rational. -/
def decimalToRat (ip fp : String) : ℚ :=
  (ip.toNat?.getD 0 : ℚ) + (fp.toNat?.getD 0 : ℚ) / ((10 : ℚ) ^ fp.length)

/-- Python int(float(s)) for the sign-free decimal numerals this code base
feeds it (digits with an optional single dot): truncation toward zero of the
decimal value.  Returns none when the string is not such a numeral, which in
the sources lands in an except-and-ignore guard. -/
def pyIntOfFloat? (s : String) : Option Int :=
  let t := s.trim
  let (neg, t) :=
    if pyStartsWith t "-" then (true, t.drop 1)
    else if pyStartsWith t "+" then (false, t.drop 1)
    else (false, t)
  match t.splitOn "." with
  | [ip] =>
      if ip != "" && ip.all Char.isDigit then
        (ip.toNat?).map (fun n => if neg then -(n : Int) else (n : Int))
      else none
  | [ip, fp] =>
      if (ip ++ fp) != "" && ip.all Char.isDigit && fp.all Char.isDigit then
        some (if neg then -((ip.toNat?.getD 0 : Nat) : Int) else ((ip.toNat?.getD 0 : Nat) : Int))
      else none
  | _ => none

/-! ### Regular-expression scans used in parsers.py

The comprehensive parser uses a handful of fixed regular expressions through
re.findall / re.search.  Each one is implemented directly as a character
scan with the same semantics on the pattern in question. -/

/-- Maximal runs of characters satisfying p, in order: the semantics of
re.findall over a one-character-class plus pattern.  The accumulator holds
the current run reversed. -/
def runsByGo (p : Char → Bool) : List Char → List Char → List String
  | [], acc => if acc.isEmpty then [] else [String.mk acc.reverse]
  | c :: cs, acc =>
      if p c then runsByGo p cs (c :: acc)
      else if acc.isEmpty then runsByGo p cs []
      else String.mk acc.reverse :: runsByGo p cs []

/-- Maximal runs of characters satisfying p in s. -/
def runsBy (p : Char → Bool) (s : String) : List String :=
  runsByGo p s.data []

/-- The scan re.findall of the digit-run pattern over s. -/
def digitRuns (s : String) : List String := runsBy Char.isDigit s

/-- Character class of the bracket expression listing the digits and the
comma, as used by the money patterns in parsers.py. -/
def isDigitOrComma (c : Char) : Bool := c.isDigit || c == ','

/-- The scan re.findall of the digit-or-comma-run pattern over s. -/
def digitCommaRuns (s : String) : List String := runsBy isDigitOrComma s

/-- Scanner for the money pattern of parsers.py: a dollar sign followed by a
captured nonempty run of digits and commas.  The boolean records whether the
previous character opened a capture (a dollar sign, or another position
inside the armed state with an empty accumulator). -/
def dollarRunsGo : List Char → Bool → List Char → List String
  | [], armed, acc =>
      if armed && !acc.isEmpty then [String.mk acc.reverse] else []
  | c :: cs, true, acc =>
      if isDigitOrComma c then dollarRunsGo cs true (c :: acc)
      else
        let tail := if c == '$' then dollarRunsGo cs true [] else dollarRunsGo cs false []
        if acc.isEmpty then tail else String.mk acc.reverse :: tail
  | c :: cs, false, _ =>
      if c == '$' then dollarRunsGo cs true [] else dollarRunsGo cs false []

/-- The scan re.findall of the dollar-amount pattern over s, returning the
captured digit-and-comma groups. -/
def dollarRuns (s : String) : List String := dollarRunsGo s.data false []

/-- Disjoint four-digit chunks of a character list, leftover dropped: how the
four-digit-group pattern matches inside one maximal digit run. -/
def chunks4 : List Char → List String
  | a :: b :: c :: d :: rest => String.mk [a, b, c, d] :: chunks4 rest
  | _ => []

/-- The scan re.findall of the four-consecutive-digits pattern over s. -/
def fourDigitRuns (s : String) : List String :=
  (digitRuns s).flatMap (fun r => chunks4 r.data)

/-- First match of the decimal-numeral pattern (digits, an optional dot,
further digits) in a character list. -/
def firstDecimalGo : List Char → Option String
  | [] => none
  | c :: cs =>
      if c.isDigit then
        let ds := c :: cs.takeWhile Char.isDigit
        match cs.dropWhile Char.isDigit with
        | '.' :: rs => some (String.mk (ds ++ '.' :: rs.takeWhile Char.isDigit))
        | _ => some (String.mk ds)
      else firstDecimalGo cs

/-- First match of the decimal-numeral pattern in s, as used for bathrooms. -/
def firstDecimal? (s : String) : Option String := firstDecimalGo s.data

/-- Character class of the separator bracket expression in the MLS pattern. -/
def isMlsSep (c : Char) : Bool := c == '#' || c == ':' || c.isWhitespace

/-- Character class of the capture bracket expression in the MLS pattern:
capital letters and digits. -/
def isMlsCap (c : Char) : Bool := c.isUpper || c.isDigit

/-- The scan re.search of the MLS pattern: the letters M, L, S, then at least
one separator character, then a captured nonempty run of capitals and digits.
On a failed attempt the scan advances one character, as a regex engine does. -/
def mlsSearchGo : List Char → Option String
  | [] => none
  | c :: cs =>
      (match c, cs with
       | 'M', 'L' :: 'S' :: rest =>
           let seps := rest.takeWhile isMlsSep
           if seps.isEmpty then mlsSearchGo cs
           else
             let cap := (rest.dropWhile isMlsSep).takeWhile isMlsCap
             if cap.isEmpty then mlsSearchGo cs else some (String.mk cap)
       | _, _ => mlsSearchGo cs)

/-- The scan re.search of the MLS pattern over s, returning the capture. -/
def mlsSearch? (s : String) : Option String := mlsSearchGo s.data

/-! ## The parse-tree capability

BeautifulSoup is an external collaborator; the specification scopes it as a
capability producing a tree queried by tag and attributes.  A node is either
an element (tag, attributes, children) or a text string.  Queries walk the
descendants in document (pre-)order, exactly as find / find_all do. -/

/-- Parse-tree node of the HTML capability. -/
inductive Node where
  | elem (tag : String) (attrs : List (String × String)) (children : List Node)
  | text (s : String)

namespace Node

/-- Attribute lookup on a node; text nodes have no attributes. -/
def attr : Node → String → Option String
  | .elem _ attrs _, k => (attrs.find? (fun kv => kv.1 == k)).map (fun kv => kv.2)
  | .text _, _ => none

mutual
/-- Descendant nodes in document order, the node itself excluded: the search
space of find and find_all. -/
def descendants : Node → List Node
  | .text _ => []
  | .elem _ _ cs => descendantsList cs

/-- Descendants of a forest, each root included, in document order. -/
def descendantsList : List Node → List Node
  | [] => []
  | c :: rest => c :: descendants c ++ descendantsList rest
end

mutual
/-- Descendant nodes paired with their immediate parent, in document order:
the search space of find_all together with find_parent. -/
def descendantsWithParent : Node → List (Node × Node)
  | .text _ => []
  | .elem t a cs => descendantsWPList (.elem t a cs) cs
termination_by n => sizeOf n
decreasing_by simp_wf; all_goals omega

/-- Descendants-with-parent of a forest below a given parent. -/
def descendantsWPList : Node → List Node → List (Node × Node)
  | _, [] => []
  | p, c :: rest => (c, p) :: descendantsWithParent c ++ descendantsWPList p rest
termination_by _ l => sizeOf l
decreasing_by all_goals (simp_wf; all_goals omega)
end

mutual
/-- Text strings below a node in document order (for a text node, its own
string): the string sequence that get_text concatenates. -/
def texts : Node → List String
  | .text s => [s]
  | .elem _ _ cs => textsList cs

/-- Text strings of a forest in document order. -/
def textsList : List Node → List String
  | [] => []
  | c :: rest => texts c ++ textsList rest
end

/-- BeautifulSoup get_text() with no arguments: concatenation of all text
below the node. -/
def getText (n : Node) : String := String.join (texts n)

/-- BeautifulSoup stripped strings: each text stripped, whitespace-only
strings dropped. -/
def strippedStrings (n : Node) : List String :=
  ((texts n).map String.trim).filter (fun s => s != "")

/-- BeautifulSoup get_text(strip=True): concatenation of the stripped
strings. -/
def getTextStrip (n : Node) : String := String.join (strippedStrings n)

/-- BeautifulSoup get_text with a one-space separator and strip=True:
stripped strings joined by single spaces. -/
def getTextSpace (n : Node) : String := String.intercalate " " (strippedStrings n)

/-- Attribute match of one selector entry against a node, with the
BeautifulSoup special case that class and rel are multi-valued: for them the
wanted value must equal one whitespace-separated token of the attribute. -/
def matchAttr (n : Node) (k v : String) : Bool :=
  match n.attr k with
  | none => false
  | some av => if k == "class" || k == "rel" then (pySplit av).contains v else av == v

/-- Element-with-tag test. -/
def hasTag (t : String) : Node → Bool
  | .elem tag _ _ => tag == t
  | .text _ => false

/-- Selector match of find(tag, attrs): the node is an element of the given
tag and every requested attribute matches. -/
def matchesSel (t : String) (attrs : List (String × String)) (n : Node) : Bool :=
  hasTag t n && attrs.all (fun kv => matchAttr n kv.1 kv.2)

/-- BeautifulSoup find_all with a node predicate. -/
def findAllP (p : Node → Bool) (n : Node) : List Node :=
  (descendants n).filter p

/-- BeautifulSoup find with a node predicate: first descendant matching. -/
def findP (p : Node → Bool) (n : Node) : Option Node :=
  (findAllP p n).head?

/-- BeautifulSoup find_all(tag, attrs). -/
def find_all (t : String) (attrs : List (String × String)) (n : Node) : List Node :=
  findAllP (matchesSel t attrs) n

/-- BeautifulSoup find(tag, attrs). -/
def find (t : String) (attrs : List (String × String)) (n : Node) : Option Node :=
  (find_all t attrs n).head?

/-- BeautifulSoup find_all over a list of acceptable tags, no attributes. -/
def findAllTags (ts : List String) (n : Node) : List Node :=
  findAllP (fun m => ts.any (fun t => hasTag t m)) n

/-- BeautifulSoup find_all(string=pred): the text strings below the node
satisfying the predicate, in document order. -/
def findStrings (p : String → Bool) (n : Node) : List String :=
  (texts n).filter p

/-- Descendant elements of a given tag paired with their immediate parent. -/
def findAllWithParent (t : String) (n : Node) : List (Node × Node) :=
  (descendantsWithParent n).filter (fun np => hasTag t np.1)

end Node

/-- Document with no content: what BeautifulSoup builds from the empty HTML
string. -/
def emptyDoc : Node := .elem "[document]" [] []

/-! ## models.py : the flat record -/

/-- PropertyData of models.py: the flat listing record.  Every field is a
string; the four trailing fields default to the sentinel.  The timestamp is
set at construction from the ambient clock, which the embedding passes in
explicitly. -/
structure PropertyData where
  address : String
  price : String
  link : String
  beds : String
  baths : String
  sqft : String
  timestamp : String
  property_type : String := "N/A"
  year_built : String := "N/A"
  lot_size : String := "N/A"
  hoa : String := "N/A"
deriving Repr, DecidableEq

/-- PropertyData.to_csv_row of models.py: the fixed 11-column row. -/
def PropertyData.to_csv_row (p : PropertyData) : List String :=
  [ p.timestamp,
    p.price,
    p.beds,
    p.baths,
    p.sqft,
    p.address,
    p.link,
    p.property_type,
    p.year_built,
    p.lot_size,
    p.hoa ]

/-- Record with the timestamp field blanked, used to compare two extractions
modulo their construction times. -/
def PropertyData.eraseTimestamp (p : PropertyData) : PropertyData :=
  { p with timestamp := "" }

/-! ## parsers.py : ZillowExactParser -/

namespace ZillowExactParser

/-- Loop body over the list items of the property-card details ul: each item
text (one-space separator, stripped, lowered) is classified by substring and
overwrites the corresponding slot, with the if/elif chain of
parsers.py lines 59-66. -/
def cardDetails (lis : List Node) : String × String × String :=
  lis.foldl
    (fun acc li =>
      let (beds, baths, sqft) := acc
      let text := (li.getTextSpace).toLower
      if containsSub text "bds" || containsSub text "bd" then
        ((((text.replace "bds" "").replace "bd" "").trim), baths, sqft)
      else if containsSub text "ba" then
        (beds, (text.replace "ba" "").trim, sqft)
      else if containsSub text "sqft" then
        (beds, baths, (text.replace "sqft" "").trim)
      else acc)
    ("N/A", "N/A", "N/A")

/-- Extraction of one property card, parsers.py lines 34-72: price, address
and link by exact attribute match, details from the details ul; a missing
price or address node resolves to the sentinel, a missing link node leaves
the empty string; a relative link is prefixed with the site origin. -/
def parseCard (now : String) (card : Node) : PropertyData :=
  let price :=
    match card.find "span" [("data-test", "property-card-price")] with
    | some t => t.getText.trim
    | none => "N/A"
  let address :=
    match card.find "address" [] with
    | some t => t.getText.trim
    | none => "N/A"
  let link0 :=
    match card.find "a" [("data-test", "property-card-link")] with
    | some t =>
        match t.attr "href" with
        | some h => h
        | none => ""
    | none => ""
  let link :=
    if link0 != "" && !(pyStartsWith link0 "http") then "https://www.zillow.com" ++ link0
    else link0
  let (beds, baths, sqft) :=
    match card.find "ul" [("data-testid", "property-card-details")] with
    | some ul => cardDetails (ul.find_all "li" [])
    | none => ("N/A", "N/A", "N/A")
  { address := address, price := price, link := link, beds := beds, baths := baths,
    sqft := sqft, timestamp := now }

/-- The property cards of a page: every article node carrying the
property-card marker attribute. -/
def cards (soup : Node) : List Node :=
  soup.find_all "article" [("data-test", "property-card")]

/-- ZillowExactParser.parse of parsers.py: one record per card found.  In the
source a per-card exception guard can skip a card; the extraction of one card
is total, so the embedding maps it over the cards. -/
def parse (soup : Node) (now : String) : List PropertyData :=
  (cards soup).map (parseCard now)

end ZillowExactParser

/-! ## parsers.py : ZillowPropertyDetailParser -/

namespace ZillowPropertyDetailParser

/-- The static square-footage cleaner of parsers.py lines 85-95. -/
def _clean_sqft_value (text : String) : String :=
  (((text.replace "sqft" "").replace "sq. ft." "").replace "," "").trim

/-- Price extraction, parsers.py lines 111-121: the ordered selector chain,
first match wins, sentinel otherwise. -/
def priceOf (soup : Node) : String :=
  match soup.find "span" [("data-testid", "price")] with
  | some t => t.getText.trim
  | none =>
      match soup.find "span" [("class", "ds-value")] with
      | some t => t.getText.trim
      | none =>
          match soup.find "h3" [("class", "ds-price")] with
          | some t => t.getText.trim
          | none => "N/A"

/-- Address extraction, parsers.py lines 124-129: the specific heading class,
falling back to the first h1, sentinel otherwise. -/
def addressOf (soup : Node) : String :=
  match soup.find "h1" [("class", "ds-address-container")] with
  | some t => t.getText.trim
  | none =>
      match soup.find "h1" [] with
      | some t => t.getText.trim
      | none => "N/A"

/-- First pass over the facts-section spans, parsers.py lines 136-145, the
if/elif classification overwriting on every match. -/
def factsPass (spans : List Node) (acc : String × String × String) : String × String × String :=
  spans.foldl
    (fun acc item =>
      let (beds, baths, sqft) := acc
      let text := (item.getTextSpace).toLower
      if containsSub text "bed" || containsSub text "bd" then
        ((pySplit text).headD "", baths, sqft)
      else if containsSub text "bath" || containsSub text "ba" then
        (beds, (pySplit text).headD "", sqft)
      else if containsSub text "sqft" || containsSub text "sq. ft" then
        (beds, baths, _clean_sqft_value text)
      else acc)
    acc

/-- Second pass over the summary-section spans, parsers.py lines 148-159:
each slot is only written while it still holds the sentinel. -/
def summaryPass (spans : List Node) (acc : String × String × String) : String × String × String :=
  spans.foldl
    (fun acc span =>
      let (beds, baths, sqft) := acc
      let text := (span.getTextSpace).toLower
      if containsSub text "bed" && beds == "N/A" then
        ((pySplit text).headD "", baths, sqft)
      else if containsSub text "bath" && baths == "N/A" then
        (beds, (pySplit text).headD "", sqft)
      else if (containsSub text "sqft" || containsSub text "sq. ft") && sqft == "N/A" then
        (beds, baths, _clean_sqft_value text)
      else acc)
    acc

/-- Beds, baths and square footage, parsers.py lines 132-159: the facts
container first, then the summary container for whichever slots remain
unresolved. -/
def bedsBathsSqft (soup : Node) : String × String × String :=
  let acc :=
    match soup.find "div" [("class", "ds-home-fact-list")] with
    | some facts => factsPass (facts.find_all "span" []) ("N/A", "N/A", "N/A")
    | none => ("N/A", "N/A", "N/A")
  if acc.1 == "N/A" || acc.2.1 == "N/A" || acc.2.2 == "N/A" then
    match soup.find "div" [("class", "ds-summary-row")] with
    | some summary => summaryPass (summary.find_all "span" []) acc
    | none => acc
  else acc

/-- Additional facts from labelled rows, parsers.py lines 162-184:
type, year built, lot size, HOA by case-insensitive substring on the label,
later rows overwriting earlier ones. -/
def additionalFacts (rows : List Node) : String × String × String × String :=
  rows.foldl
    (fun acc row =>
      let (ptype, year, lot, hoa) := acc
      match row.find "span" [("class", "ds-home-fact-label")],
            row.find "span" [("class", "ds-home-fact-value")] with
      | some labelTag, some valueTag =>
          let label := labelTag.getText.trim.toLower
          let value := valueTag.getText.trim
          if containsSub label "type" then (value, year, lot, hoa)
          else if containsSub label "year built" || containsSub label "built" then
            (ptype, value, lot, hoa)
          else if containsSub label "lot" then (ptype, year, value, hoa)
          else if containsSub label "hoa" then (ptype, year, lot, value)
          else acc
      | _, _ => acc)
    ("N/A", "N/A", "N/A", "N/A")

/-- Canonical link, parsers.py lines 187-190: the canonical link element's
href when present and nonempty, sentinel otherwise. -/
def linkOf (soup : Node) : String :=
  match soup.find "link" [("rel", "canonical")] with
  | some t =>
      match t.attr "href" with
      | some h => if h != "" then h else "N/A"
      | none => "N/A"
  | none => "N/A"

/-- Record built by a successful pass of parse_detail over the tree. -/
def detailRecord (soup : Node) (now : String) : PropertyData :=
  let (beds, baths, sqft) := bedsBathsSqft soup
  let (ptype, year, lot, hoa) :=
    additionalFacts (soup.find_all "div" [("class", "ds-home-fact-list-item")])
  { address := addressOf soup, price := priceOf soup, link := linkOf soup,
    beds := beds, baths := baths, sqft := sqft, timestamp := now,
    property_type := ptype, year_built := year, lot_size := lot, hoa := hoa }

/-- ZillowPropertyDetailParser.parse_detail of parsers.py lines 97-207.  The
whole pass sits in a try whose except returns the absent result; the pass
itself is total, so on the pure data path the result is always the record. -/
def parse_detail (soup : Node) (now : String) : Option PropertyData :=
  some (detailRecord soup now)

/-- Variant of parse_detail with the exception path made explicit: the raise
flag states that some call inside the try block of parse_detail raised, in
which case the except of parsers.py lines 205-207 returns the absent
result. -/
def parse_detailE (raised : Bool) (soup : Node) (now : String) : Option PropertyData :=
  if raised then none else parse_detail soup now

end ZillowPropertyDetailParser

/-! ## models.py : the comprehensive record graph -/

/-- AddressInfo of models.py. -/
structure AddressInfo where
  street : String := "N/A"
  city : String := "N/A"
  state : String := "N/A"
  zip_code : String := "N/A"
deriving Repr, DecidableEq

/-- PriceDetails of models.py: optional integers, absent when not found. -/
structure PriceDetails where
  list_price : Option Int := none
  price_per_sqft : Option Int := none
  est_monthly_payment : Option Int := none
  zestimate : Option Int := none
  tax_assessed_value : Option Int := none
  annual_tax_amount : Option Int := none
deriving Repr, DecidableEq

/-- PropertyBasics of models.py.  The bathrooms field is a Python float fed
only exact decimal numerals by the parser; it is embedded as the exact
rational value of the numeral. -/
structure PropertyBasics where
  home_type : String := "N/A"
  bedrooms : Option Int := none
  bathrooms : Option ℚ := none
  full_bathrooms : Option Int := none
  square_footage : Option Int := none
  year_built : Option Int := none
  stories : Option Int := none
  zoning : String := "N/A"
  parcel_number : String := "N/A"
deriving Repr, DecidableEq

/-- ParkingInfo of models.py. -/
structure ParkingInfo where
  total_spaces : Option Int := none
  garage_spaces : Option Int := none
  features : List String := []
deriving Repr, DecidableEq

/-- InteriorFeatures of models.py. -/
structure InteriorFeatures where
  flooring : List String := []
  kitchen : List String := []
  bathroom_features : List String := []
  laundry : String := "N/A"
  cooling : String := "N/A"
  heating : String := "N/A"
  additional_rooms : List String := []
  highlights : List String := []
deriving Repr, DecidableEq

/-- CommunityAmenities of models.py. -/
structure CommunityAmenities where
  hoa_fee_monthly : Option Int := none
  parking : ParkingInfo := {}
  pool : String := "N/A"
  accessibility : List String := []
  storage : String := "N/A"
deriving Repr, DecidableEq

/-- LocationScores of models.py. -/
structure LocationScores where
  walk_score : Option Int := none
  transit_score : Option Int := none
  bike_score : Option Int := none
deriving Repr, DecidableEq

/-- SchoolInfo of models.py. -/
structure SchoolInfo where
  name : String := "N/A"
  rating : String := "N/A"
  grades : String := "N/A"
deriving Repr, DecidableEq

/-- ListingInfo of models.py. -/
structure ListingInfo where
  status : String := "N/A"
  days_on_zillow : Option Int := none
  mls_number : String := "N/A"
  listing_agent : String := "N/A"
  last_updated : String := "N/A"
deriving Repr, DecidableEq

/-- PropertyDetail of models.py: one of each composite sub-record, the url
and the construction timestamp. -/
structure PropertyDetail where
  address : AddressInfo := {}
  price_details : PriceDetails := {}
  property_basics : PropertyBasics := {}
  interior_features : InteriorFeatures := {}
  community_amenities : CommunityAmenities := {}
  location_scores : LocationScores := {}
  nearby_schools : List SchoolInfo := []
  listing_info : ListingInfo := {}
  url : String := "N/A"
  timestamp : String
deriving Repr, DecidableEq

/-! ## parsers.py : ZillowComprehensiveDetailParser -/

namespace ZillowComprehensiveDetailParser

/-- The value of the exact decimal numeral strings produced by the
decimal-numeral scan, as a rational (what Python float computes on them,
before IEEE rounding, which no claim inspects). -/
def ratOfNumeral (s : String) : ℚ :=
  match s.splitOn "." with
  | [ip] => decimalToRat ip ""
  | [ip, fp] => decimalToRat ip fp
  | _ => 0

/-- Integer part of such a numeral: the value of int(float(s)) on it. -/
def intOfNumeral (s : String) : Int :=
  (((s.splitOn ".").headD "").toNat?.getD 0 : Nat)

/-- The _parse_address branch, parsers.py lines 274-301: heading text split
on commas into street / city / state-zip, the third segment split on
whitespace. -/
def _parse_address (soup : Node) : AddressInfo :=
  let h1 :=
    match soup.find "h1" [("class", "ds-address-container")] with
    | some t => some t
    | none => soup.find "h1" []
  match h1 with
  | none => {}
  | some tag =>
      let parts := ((tag.getTextStrip).splitOn ",").map String.trim
      let a : AddressInfo := {}
      let a := match parts.head? with
        | some s => { a with street := s }
        | none => a
      let a := match parts[1]? with
        | some c => { a with city := c }
        | none => a
      match parts[2]? with
      | some third =>
          let state_zip := pySplit third.trim
          let a := match state_zip.head? with
            | some st => { a with state := st }
            | none => a
          match state_zip[1]? with
          | some z => { a with zip_code := z }
          | none => a
      | none => a

/-- The _parse_price_details branch, parsers.py lines 303-398. -/
def _parse_price_details (soup : Node) : PriceDetails :=
  let pd : PriceDetails := {}
  let priceTag :=
    match soup.find "span" [("data-testid", "price")] with
    | some t => some t
    | none => soup.find "span" [("class", "ds-value")]
  let pd := match priceTag with
    | some t =>
        let priceText := ((t.getText.trim).replace "$" "").replace "," ""
        match pyInt? priceText with
        | some v => { pd with list_price := some v }
        | none => pd
    | none => pd
  let spans := soup.find_all "span" []
  let pd := match spans.find? (fun sp =>
      let text := sp.getText.toLower
      containsSub text "/sqft" || containsSub text "per sq ft") with
    | some sp =>
        let text := sp.getText.toLower
        let s := (((text.replace "$" "").replace "/sqft" "").replace "," "").trim
        match pyIntOfFloat? s with
        | some v => { pd with price_per_sqft := some v }
        | none => pd
    | none => pd
  let spansP := soup.findAllWithParent "span"
  let pd := match spansP.find? (fun sp =>
      let text := sp.1.getText
      containsSub text "Est. payment" || containsSub text.toLower "mo") with
    | some sp =>
        let amount := (((sp.2.getText).replace "$" "").replace "," "").replace "/mo" ""
        match (digitRuns amount).head? with
        | some n =>
            match pyInt? n with
            | some v => { pd with est_monthly_payment := some v }
            | none => pd
        | none => pd
    | none => pd
  let pd := match (soup.find_all "div" []).find? (fun d =>
      containsSub d.getText "Zestimate") with
    | some d =>
        match (dollarRuns d.getText).head? with
        | some n =>
            match pyInt? (n.replace "," "") with
            | some v => { pd with zestimate := some v }
            | none => pd
        | none => pd
    | none => pd
  spansP.foldl
    (fun pd sp =>
      let text := sp.1.getText
      let pd :=
        if containsSub text "Tax assessed value" || containsSub text "Assessed Value" then
          match (dollarRuns sp.2.getText).head? with
          | some n =>
              match pyInt? (n.replace "," "") with
              | some v => { pd with tax_assessed_value := some v }
              | none => pd
          | none => pd
        else pd
      if containsSub text "Annual tax amount" || containsSub text "Property taxes" then
        match (dollarRuns sp.2.getText).head? with
        | some n =>
            match pyInt? (n.replace "," "") with
            | some v => { pd with annual_tax_amount := some v }
            | none => pd
        | none => pd
      else pd)
    pd

/-- The _parse_property_basics branch, parsers.py lines 400-498.  The
second disjunct of the Stories test probes a lowered string for a pattern
containing a capital letter and therefore never fires; it is embedded
exactly as written. -/
def _parse_property_basics (soup : Node) : PropertyBasics :=
  let b : PropertyBasics := {}
  let b := (soup.find_all "span" []).foldl
    (fun b span =>
      let text := span.getTextSpace
      let b :=
        if (containsSub text.toLower "bed" || containsSub text.toLower "bd")
            && b.bedrooms.isNone then
          match (digitRuns text).head? with
          | some n =>
              match pyInt? n with
              | some v => { b with bedrooms := some v }
              | none => b
          | none => b
        else b
      let b :=
        if (containsSub text.toLower "bath" || containsSub text.toLower "ba")
            && b.bathrooms.isNone then
          match firstDecimal? text with
          | some n => { b with bathrooms := some (ratOfNumeral n),
                               full_bathrooms := some (intOfNumeral n) }
          | none => b
        else b
      if (containsSub text.toLower "sqft" || containsSub text.toLower "sq. ft")
          && b.square_footage.isNone then
        match (digitCommaRuns text).head? with
        | some n =>
            match pyInt? (n.replace "," "") with
            | some v => { b with square_footage := some v }
            | none => b
        | none => b
      else b)
    b
  let factList :=
    match soup.find "div" [("class", "ds-home-fact-list")] with
    | some f => some f
    | none => soup.find "ul" [("class", "ds-home-facts-and-features")]
  match factList with
  | none => b
  | some fl =>
      (fl.findAllTags ["li", "div"]).foldl
        (fun b row =>
          let text := row.getTextSpace
          let b :=
            if containsSub text "Type" || containsSub text "Property Type" then
              match (text.splitOn ":")[1]? with
              | some part => { b with home_type := part.trim }
              | none => b
            else b
          let b :=
            if containsSub text "Year Built" || containsSub text "Built in" then
              match (fourDigitRuns text).head? with
              | some n =>
                  match pyInt? n with
                  | some v => { b with year_built := some v }
                  | none => b
              | none => b
            else b
          let b :=
            if containsSub text "Stories" || containsSub text.toLower "Floor" then
              match (digitRuns text).head? with
              | some n =>
                  match pyInt? n with
                  | some v => { b with stories := some v }
                  | none => b
              | none => b
            else b
          let b :=
            if containsSub text "Zoning" then
              match (text.splitOn ":")[1]? with
              | some part => { b with zoning := part.trim }
              | none => b
            else b
          if containsSub text "Parcel" || containsSub text "APN" then
            match (text.splitOn ":")[1]? with
            | some part => { b with parcel_number := part.trim }
            | none => b
          else b)
        b

/-- Selector of the feature sections, parsers.py lines 507-509: div elements
whose class carries either listed token. -/
def sectionClassPred (n : Node) : Bool :=
  n.hasTag "div"
    && (n.matchAttr "class" "ds-home-facts-and-features" || n.matchAttr "class" "fact-group")

/-- Appends the stripped text of every short list item of a section to a
string list, parsers.py append loops. -/
def appendItems (sec : Node) (acc : List String) : List String :=
  (sec.find_all "li" []).foldl
    (fun acc item =>
      let text := item.getTextStrip
      if text != "" && text.length < 100 then acc ++ [text] else acc)
    acc

/-- The _parse_interior_features branch, parsers.py lines 500-556. -/
def _parse_interior_features (soup : Node) : InteriorFeatures :=
  (soup.findAllP sectionClassPred).foldl
    (fun f sec =>
      let sectionText := sec.getText
      let f :=
        if containsSub sectionText "Flooring" || containsSub sectionText "Floor" then
          { f with flooring := appendItems sec f.flooring }
        else f
      let f :=
        if containsSub sectionText "Kitchen" || containsSub sectionText "Appliances" then
          { f with kitchen := appendItems sec f.kitchen }
        else f
      let f :=
        if containsSub sectionText "Bathroom" then
          { f with bathroom_features := appendItems sec f.bathroom_features }
        else f
      let f :=
        if containsSub sectionText "Laundry" then
          let text := sec.getTextStrip
          if containsSub text ":" then
            { f with laundry := ((text.splitOn ":").getLastD "").trim }
          else f
        else f
      let f :=
        if containsSub sectionText "Cooling" then
          let text := sec.getTextStrip
          if containsSub text ":" then
            { f with cooling := ((text.splitOn ":").getLastD "").trim }
          else f
        else f
      if containsSub sectionText "Heating" then
        let text := sec.getTextStrip
        if containsSub text ":" then
          { f with heating := ((text.splitOn ":").getLastD "").trim }
        else f
      else f)
    {}

/-- The _parse_community_amenities branch, parsers.py lines 558-592. -/
def _parse_community_amenities (soup : Node) : CommunityAmenities :=
  let a : CommunityAmenities := { parking := {} }
  let a := match (soup.find_all "span" []).find? (fun sp =>
      let text := sp.getText
      containsSub text "HOA" || containsSub text.toLower "hoa") with
    | some sp =>
        match (dollarRuns sp.getText).head? with
        | some n =>
            match pyInt? (n.replace "," "") with
            | some v => { a with hoa_fee_monthly := some v }
            | none => a
        | none => a
    | none => a
  (soup.findStrings (fun s => containsSub s.toLower "parking")).foldl
    (fun a t =>
      match (digitRuns t).head? with
      | some n =>
          if a.parking.total_spaces.isNone then
            match pyInt? n with
            | some v => { a with parking := { a.parking with total_spaces := some v } }
            | none => a
          else a
      | none => a)
    a

/-- The _parse_location_scores branch, parsers.py lines 594-635. -/
def _parse_location_scores (soup : Node) : LocationScores :=
  (soup.find_all "div" []).foldl
    (fun sc d =>
      let text := d.getText
      let sc :=
        if containsSub text "Walk Score" then
          match (digitRuns text).head? with
          | some n =>
              match pyInt? n with
              | some v => { sc with walk_score := some v }
              | none => sc
          | none => sc
        else sc
      let sc :=
        if containsSub text "Transit Score" then
          match (digitRuns text).head? with
          | some n =>
              match pyInt? n with
              | some v => { sc with transit_score := some v }
              | none => sc
          | none => sc
        else sc
      if containsSub text "Bike Score" then
        match (digitRuns text).head? with
        | some n =>
            match pyInt? n with
            | some v => { sc with bike_score := some v }
            | none => sc
        | none => sc
      else sc)
    {}

/-- Selector of the school section, parsers.py line 644: a div whose class
attribute is present, nonempty, and contains the school word. -/
def schoolSectionPred (n : Node) : Bool :=
  n.hasTag "div"
    && (match n.attr "class" with
        | some av => av != "" && containsSub av.toLower "schools"
        | none => false)

/-- The _parse_nearby_schools branch, parsers.py lines 637-656. -/
def _parse_nearby_schools (soup : Node) : List SchoolInfo :=
  match soup.findP schoolSectionPred with
  | none => []
  | some sec =>
      (sec.find_all "div" []).foldl
        (fun schools item =>
          let text := item.getTextStrip
          if containsSub text "Elementary" || containsSub text "Middle"
              || containsSub text "High" then
            schools ++ [({ name := text } : SchoolInfo)]
          else schools)
        []

/-- Selector of the agent divs, parsers.py line 700. -/
def agentDivPred (n : Node) : Bool :=
  n.hasTag "div"
    && (match n.attr "class" with
        | some av => containsSub av.toLower "agent"
        | none => false)

/-- The _parse_listing_info branch, parsers.py lines 658-707.  The
days-on-Zillow probe tests a lowered string for a pattern containing a
capital letter and therefore never fires; it is embedded exactly as
written. -/
def _parse_listing_info (soup : Node) : ListingInfo :=
  let li : ListingInfo := {}
  let li := match (soup.find_all "span" []).find? (fun sp =>
      let text := sp.getTextStrip
      text == "For Sale" || text == "For Rent" || text == "Sold"
        || text == "Pending" || text == "Active") with
    | some sp => { li with status := sp.getTextStrip }
    | none => li
  let li := match (soup.findStrings
      (fun s => containsSub s.toLower "days on Zillow")).head? with
    | some t =>
        match (digitRuns t).head? with
        | some n =>
            match pyInt? n with
            | some v => { li with days_on_zillow := some v }
            | none => li
        | none => li
    | none => li
  let li := match (soup.findStrings (fun s => containsSub s "MLS")).head? with
    | some t =>
        match mlsSearch? t with
        | some m => { li with mls_number := m }
        | none => li
    | none => li
  match (soup.findAllP agentDivPred).find? (fun d =>
      let text := d.getTextStrip
      text != "" && containsSub text "(" && containsSub text ")") with
  | some d => { li with listing_agent := d.getTextStrip }
  | none => li

/-- Record built by one full pass of the eight branch extractions over the
tree, parsers.py lines 233-268. -/
def detailOf (soup : Node) (url : String) (now : String) : PropertyDetail :=
  { address := _parse_address soup,
    price_details := _parse_price_details soup,
    property_basics := _parse_property_basics soup,
    interior_features := _parse_interior_features soup,
    community_amenities := _parse_community_amenities soup,
    location_scores := _parse_location_scores soup,
    nearby_schools := _parse_nearby_schools soup,
    listing_info := _parse_listing_info soup,
    url := url, timestamp := now }

/-- ZillowComprehensiveDetailParser.parse of parsers.py lines 216-272: the
eight branch calls run inside one try whose except returns the absent
result; the branches themselves are total, so the pure data path always
yields the record. -/
def parse (soup : Node) (url : String) (now : String) : Option PropertyDetail :=
  some (detailOf soup url now)

/-- The eight sub-extraction call sites inside the try block of parse. -/
inductive Branch where
  | address | priceDetails | basics | interior | amenities | scores | schools | listing
deriving Repr, DecidableEq

/-- Whether any of the eight branch calls raises under the given raise
assignment. -/
def anyRaise (raised : Branch → Bool) : Bool :=
  raised .address || raised .priceDetails || raised .basics || raised .interior
    || raised .amenities || raised .scores || raised .schools || raised .listing

/-- Variant of parse with the exception flow made explicit: the raised
assignment states which of the eight branch calls inside the try block
raises at run time.  There is no branch-level guard in the source, so a
raise in any branch propagates to the single except of parsers.py lines
270-272, which returns the absent result for the whole pass. -/
def parseE (raised : Branch → Bool) (soup : Node) (url : String) (now : String) :
    Option PropertyDetail :=
  if anyRaise raised then none else parse soup url now

end ZillowComprehensiveDetailParser

/-! ## browsers.py : SmartScrollerBrowser

The Selenium driver is the external acquisition capability; an environment
supplies the outcome of each of its calls. -/

/-- Driver read-backs of one iteration of the _human_scroll loop of
browsers.py lines 46-78: the randomized wheel increment (which does not feed
the loop condition), the three metrics read at step 3, and the scrollHeight
re-read after the lazy-load pause.  The re-read is only consulted when the
bottom test fires. -/
structure ScrollReading where
  chunk : Int
  visible : Int
  scrolled : Int
  total : Int
  newTotal : Int
deriving Repr, DecidableEq

namespace SmartScrollerBrowser

/-- Bottom test of browsers.py line 64: the scrolled offset plus the visible
height reaches the total content height up to the slack of 100. -/
def reachedBottom (r : ScrollReading) : Bool :=
  r.scrolled + r.visible ≥ r.total - 100

/-- Termination test of one iteration, browsers.py lines 64-78: the loop
breaks exactly when the bottom is reached and the re-read total height equals
the height read this iteration.  When the height grew, the loop only updates
a variable that the next iteration overwrites before reading it. -/
def stopsAt (r : ScrollReading) : Bool :=
  reachedBottom r && r.newTotal == r.total

/-- Whether the while-true loop of _human_scroll, run against the per-
iteration readings env, breaks within the first k iterations. -/
def scrollHaltsWithin (env : Nat → ScrollReading) : Nat → Bool
  | 0 => false
  | k + 1 => stopsAt (env 0) || scrollHaltsWithin (fun n => env (n + 1)) k

end SmartScrollerBrowser

/-- Outcomes of the driver calls made by one fetch_source invocation,
browsers.py lines 80-96: navigation, the three container-selector lookups
and the body fallback of _find_scrollable_element, the scroll interaction,
and the final page_source read.  An error value is a raised driver
exception. -/
structure DriverEnv where
  navigate : Except Unit Unit
  findById : Except Unit Unit
  findByClass : Except Unit Unit
  findByPartial : Except Unit Unit
  findBody : Except Unit Unit
  scroll : Except Unit Unit
  pageSource : Except Unit String

namespace SmartScrollerBrowser

/-- The _find_scrollable_element chain of browsers.py lines 17-36: each of
the three selector lookups has its own swallow-and-continue guard; the body
fallback is unguarded, so its failure propagates. -/
def _find_scrollable_element (env : DriverEnv) : Except Unit Unit :=
  match env.findById with
  | .ok e => .ok e
  | .error _ =>
      match env.findByClass with
      | .ok e => .ok e
      | .error _ =>
          match env.findByPartial with
          | .ok e => .ok e
          | .error _ => env.findBody

/-- The body of the try block of fetch_source, browsers.py lines 82-93:
navigate, find the container, scroll it, read the page source; the first
raised driver exception aborts the sequence. -/
def acquire (env : DriverEnv) : Except Unit String := do
  let _ ← env.navigate
  let _ ← _find_scrollable_element env
  let _ ← env.scroll
  env.pageSource

/-- SmartScrollerBrowser.fetch_source of browsers.py lines 80-96: the page
source on success, the empty string when any driver call raised. -/
def fetch_source (env : DriverEnv) : String :=
  match acquire env with
  | .ok s => s
  | .error _ => ""

end SmartScrollerBrowser

/-! ## api.py : the resolution orchestrator -/

/-- Hexadecimal digit characters, upper case, as urllib.parse.quote
emits them. -/
def hexDigitChar (n : Nat) : Char :=
  if n < 10 then Char.ofNat ('0'.toNat + n) else Char.ofNat ('A'.toNat + n - 10)

/-- Bytes that urllib.parse.quote leaves unencoded with its default safe
set: ASCII letters, digits, underscore, dot, hyphen, tilde and the slash. -/
def quoteSafeByte (b : UInt8) : Bool :=
  (65 ≤ b.toNat && b.toNat ≤ 90) || (97 ≤ b.toNat && b.toNat ≤ 122)
    || (48 ≤ b.toNat && b.toNat ≤ 57)
    || b.toNat == 95 || b.toNat == 46 || b.toNat == 45 || b.toNat == 126 || b.toNat == 47

/-- Percent-encoding of urllib.parse.quote over the UTF-8 bytes of s. -/
def pyQuote (s : String) : String :=
  String.join (s.toUTF8.toList.map (fun b =>
    if quoteSafeByte b then String.mk [Char.ofNat b.toNat]
    else "%" ++ String.mk [hexDigitChar (b.toNat / 16), hexDigitChar (b.toNat % 16)]))

/-- Observable session events of one orchestrator run: construction of an
acquisition session, a page fetch on a session, and an invocation of the
session's release (browser.close). -/
inductive Ev where
  | openS (sid : Nat)
  | fetch (sid : Nat) (url : String)
  | close (sid : Nat)
deriving Repr, DecidableEq

/-- Session identifiers constructed during a run. -/
def openedSessions (evs : List Ev) : List Nat :=
  evs.filterMap (fun e => match e with | .openS s => some s | _ => none)

/-- Number of times the release of session sid was invoked during a run. -/
def closeCount (evs : List Ev) (sid : Nat) : Nat :=
  (evs.filterMap (fun e => match e with | .close s => some s | _ => none)).count sid

/-- Urls acquired during a run, in order. -/
def fetchedUrls (evs : List Ev) : List String :=
  evs.filterMap (fun e => match e with | .fetch _ u => some u | _ => none)

/-- Environment of one orchestrator run: the parse-tree capability applied
to fetched HTML, the HTML each session's fetch_source returns per url
(fetch_source itself never raises, browsers.py lines 94-96), and whether
constructing a given session raises (driver launch failure). -/
structure OrchEnv where
  soupOf : String → Node
  fetchResult : Nat → String → String
  openFails : Nat → Bool

namespace api

open ZillowComprehensiveDetailParser in
/-- The _execute_property_detail_fetch orchestrator of api.py lines 75-152,
with its session events made explicit.  Session 0 is the browser constructed
at line 81 (before the try: a constructor failure propagates with no session
opened), session 1 the detail browser of line 126.  Each Ev.close records one
browser.close() call site reached: the explicit closes of lines 101, 109,
117, 123, 134 and the finally of line 152, which closes whatever the browser
variable holds at exit.  The first returned component is the caught result;
the error value is the constructor exception that escapes the function. -/
def _execute_property_detail_fetch (env : OrchEnv) (target : String) (now : String) :
    Except Unit (Option PropertyDetail) × List Ev :=
  if env.openFails 0 then (.error (), [])
  else if pyStartsWith target "http://" || pyStartsWith target "https://" then
    let html := env.fetchResult 0 target
    if html == "" then
      (.ok none, [.openS 0, .fetch 0 target, .close 0, .close 0])
    else
      let d := parse (env.soupOf html) target now
      (.ok d, [.openS 0, .fetch 0 target, .close 0])
  else
    let search_url := "https://www.zillow.com/homes/" ++ pyQuote target ++ "_rb/"
    let html := env.fetchResult 0 search_url
    if html == "" then
      (.ok none, [.openS 0, .fetch 0 search_url, .close 0, .close 0])
    else
      match ZillowExactParser.parse (env.soupOf html) now with
      | [] => (.ok none, [.openS 0, .fetch 0 search_url, .close 0, .close 0])
      | p :: _ =>
          let property_url := p.link
          if property_url == "" || property_url == "N/A" then
            (.ok none, [.openS 0, .fetch 0 search_url, .close 0, .close 0])
          else if env.openFails 1 then
            (.ok none, [.openS 0, .fetch 0 search_url, .close 0, .close 0])
          else
            let html2 := env.fetchResult 1 property_url
            if html2 == "" then
              (.ok none, [.openS 0, .fetch 0 search_url, .close 0,
                          .openS 1, .fetch 1 property_url, .close 1, .close 1])
            else
              let d := parse (env.soupOf html2) property_url now
              (.ok d, [.openS 0, .fetch 0 search_url, .close 0,
                       .openS 1, .fetch 1 property_url, .close 1])

end api

/-! ## Concrete fixtures used to instantiate the theorems -/

/-- Card node that matches the listing-card marker and has none of the
expected children. -/
def c2card : Node := .elem "article" [("data-test", "property-card")] []

/-- Document holding a single structurally empty card. -/
def c2doc : Node := .elem "[document]" [] [c2card]

/-- Shape test for a structurally empty card: the card has no price node, no
address node, no link node and no details list. -/
def emptyCardShape (c : Node) : Bool :=
  (c.find "span" [("data-test", "property-card-price")]).isNone
    && (c.find "address" []).isNone
    && (c.find "a" [("data-test", "property-card-link")]).isNone
    && (c.find "ul" [("data-testid", "property-card-details")]).isNone

/-- Orchestrator environment whose sessions all construct, whose every fetch
returns the empty string and whose parse capability yields the empty
document. -/
def envEmptyFetch : OrchEnv :=
  { soupOf := fun _ => emptyDoc, fetchResult := fun _ _ => "", openFails := fun _ => false }

/-- Detail-page url used to drive the orchestrator fixtures. -/
def detailUrlFx : String := "https://www.zillow.com/homedetails/748-Cottage-Ct/12345_zpid/"

/-- Scroll reading in which the bottom is reached and the re-read height
grew. -/
def readingGrow : ScrollReading :=
  { chunk := 150, visible := 800, scrolled := 0, total := 500, newTotal := 900 }

/-- Scroll reading in which the bottom is reached and the re-read height is
unchanged. -/
def readingStop : ScrollReading :=
  { chunk := 150, visible := 800, scrolled := 0, total := 500, newTotal := 500 }

/-- Driver environment in which every call succeeds and the page source is a
fixed marker string. -/
def driverAllOk : DriverEnv :=
  { navigate := .ok (), findById := .ok (), findByClass := .ok (),
    findByPartial := .ok (), findBody := .ok (), scroll := .ok (),
    pageSource := .ok "page-source" }

/-! ## Helper lemmas shared by the claim theorems -/

/-- One record per found card: the parse of ZillowExactParser is a map over
the card list. -/
theorem ZillowExactParser.parse_length (soup : Node) (now : String) :
    (ZillowExactParser.parse soup now).length = (ZillowExactParser.cards soup).length := by
  simp [ZillowExactParser.parse]

/-- Extraction of a structurally empty card: every extracted field resolves
to the sentinel except the link, which keeps the empty string it was
initialized to. -/
theorem ZillowExactParser.parseCard_of_emptyShape (now : String) (c : Node)
    (h : emptyCardShape c = true) :
    ZillowExactParser.parseCard now c =
      { address := "N/A", price := "N/A", link := "", beds := "N/A", baths := "N/A",
        sqft := "N/A", timestamp := now } := by
  have h' := h
  simp only [emptyCardShape, Bool.and_eq_true, Option.isNone_iff_eq_none] at h'
  obtain ⟨⟨⟨h1, h2⟩, h3⟩, h4⟩ := h'
  simp [ZillowExactParser.parseCard, h1, h2, h3, h4]

/-- The extracted content of one card does not depend on the ambient clock:
only the timestamp field does. -/
theorem ZillowExactParser.parseCard_eraseTimestamp (c : Node) (n1 n2 : String) :
    (ZillowExactParser.parseCard n1 c).eraseTimestamp =
      (ZillowExactParser.parseCard n2 c).eraseTimestamp := by
  simp [ZillowExactParser.parseCard, PropertyData.eraseTimestamp]

/-- Case analysis of the orchestrator's event trace: one of the five literal
shapes produced by its terminal paths. -/
theorem api.exec_events_cases (env : OrchEnv) (target now : String) :
    (api._execute_property_detail_fetch env target now).2 = [] ∨
    (∃ u, (api._execute_property_detail_fetch env target now).2 =
      [.openS 0, .fetch 0 u, .close 0, .close 0]) ∨
    (∃ u, (api._execute_property_detail_fetch env target now).2 =
      [.openS 0, .fetch 0 u, .close 0]) ∨
    (∃ u v, (api._execute_property_detail_fetch env target now).2 =
      [.openS 0, .fetch 0 u, .close 0, .openS 1, .fetch 1 v, .close 1, .close 1]) ∨
    (∃ u v, (api._execute_property_detail_fetch env target now).2 =
      [.openS 0, .fetch 0 u, .close 0, .openS 1, .fetch 1 v, .close 1]) := by
  unfold api._execute_property_detail_fetch
  dsimp only
  split
  · exact Or.inl rfl
  · split
    · split
      · exact Or.inr (Or.inl ⟨target, rfl⟩)
      · exact Or.inr (Or.inr (Or.inl ⟨target, rfl⟩))
    · split
      · exact Or.inr (Or.inl ⟨_, rfl⟩)
      · split
        · exact Or.inr (Or.inl ⟨_, rfl⟩)
        · split
          · exact Or.inr (Or.inl ⟨_, rfl⟩)
          · split
            · exact Or.inr (Or.inl ⟨_, rfl⟩)
            · split
              · exact Or.inr (Or.inr (Or.inr (Or.inl ⟨_, _, rfl⟩)))
              · exact Or.inr (Or.inr (Or.inr (Or.inr ⟨_, _, rfl⟩)))

/-- Helper: a run all of whose iterations fail the stop test never halts,
for any horizon. -/
theorem scrollNeverHalts (k : Nat) :
    ∀ env : Nat → ScrollReading, (∀ n, SmartScrollerBrowser.stopsAt (env n) = false) →
      SmartScrollerBrowser.scrollHaltsWithin env k = false := by
  induction k with
  | zero => intro env _; rfl
  | succ k ih =>
      intro env h
      simp only [SmartScrollerBrowser.scrollHaltsWithin, h 0, Bool.false_or]
      exact ih (fun n => env (n + 1)) (fun n => h (n + 1))

/-- Helper: the loop breaks exactly at the first iteration passing the stop
test: it has not halted before it and has halted right after it. -/
theorem scrollHaltsAtFirstStop (n : Nat) :
    ∀ env : Nat → ScrollReading,
      (∀ m, m < n → SmartScrollerBrowser.stopsAt (env m) = false) →
      SmartScrollerBrowser.stopsAt (env n) = true →
      SmartScrollerBrowser.scrollHaltsWithin env n = false ∧
        SmartScrollerBrowser.scrollHaltsWithin env (n + 1) = true := by
  induction n with
  | zero =>
      intro env _ hstop
      exact ⟨rfl, by simp [SmartScrollerBrowser.scrollHaltsWithin, hstop]⟩
  | succ n ih =>
      intro env hlt hstop
      have h0 : SmartScrollerBrowser.stopsAt (env 0) = false := hlt 0 (Nat.succ_pos n)
      obtain ⟨ih1, ih2⟩ := ih (fun m => env (m + 1))
        (fun m hm => hlt (m + 1) (by omega)) hstop
      constructor
      · show (SmartScrollerBrowser.stopsAt (env 0)
          || SmartScrollerBrowser.scrollHaltsWithin (fun m => env (m + 1)) n) = false
        rw [h0, ih1]
        rfl
      · show (SmartScrollerBrowser.stopsAt (env 0)
          || SmartScrollerBrowser.scrollHaltsWithin (fun m => env (m + 1)) (n + 1)) = true
        rw [h0, ih2]
        rfl

/-! ## The claims -/

/-- Claim C1 (corrected): the original claim says every acquisition session
opened during a resolution has its release invoked exactly once on every
terminal path.  What holds of the orchestrator is the amended bound: every
session opened during the run has its release invoked at least once and at
most twice before the operation returns — never zero times, but on the
early-failure paths (empty fetch, zero search results, missing or sentinel
canonical link, detail-session construction failure) the explicit close is
followed by the finally-clause close of the same session, so the count there
is two. -/
theorem C1_session_release_bounds (env : OrchEnv) (target now : String) (sid : Nat)
    (h : sid ∈ openedSessions (api._execute_property_detail_fetch env target now).2) :
    1 ≤ closeCount (api._execute_property_detail_fetch env target now).2 sid ∧
      closeCount (api._execute_property_detail_fetch env target now).2 sid ≤ 2 := by
  rcases api.exec_events_cases env target now with h0 | ⟨u, he⟩ | ⟨u, he⟩ | ⟨u, v, he⟩ | ⟨u, v, he⟩
  · rw [h0] at h
    exact absurd (show sid ∈ ([] : List Nat) from h) (List.not_mem_nil sid)
  · rw [he] at h ⊢
    have hs : sid = 0 := by simpa using show sid ∈ [0] from h
    subst hs
    exact ⟨show 1 ≤ 2 by decide, show 2 ≤ 2 by decide⟩
  · rw [he] at h ⊢
    have hs : sid = 0 := by simpa using show sid ∈ [0] from h
    subst hs
    exact ⟨show 1 ≤ 1 by decide, show 1 ≤ 2 by decide⟩
  · rw [he] at h ⊢
    have hs : sid = 0 ∨ sid = 1 := by simpa using show sid ∈ [0, 1] from h
    rcases hs with hs | hs <;> subst hs
    · exact ⟨show 1 ≤ 1 by decide, show 1 ≤ 2 by decide⟩
    · exact ⟨show 1 ≤ 2 by decide, show 2 ≤ 2 by decide⟩
  · rw [he] at h ⊢
    have hs : sid = 0 ∨ sid = 1 := by simpa using show sid ∈ [0, 1] from h
    rcases hs with hs | hs <;> subst hs
    · exact ⟨show 1 ≤ 1 by decide, show 1 ≤ 2 by decide⟩
    · exact ⟨show 1 ≤ 1 by decide, show 1 ≤ 2 by decide⟩

/-- Witness for C1: a concrete run (direct detail url, empty fetch result)
with session 0 opened, instantiating the bounds. -/
theorem C1_session_release_bounds_witness :
    1 ≤ closeCount (api._execute_property_detail_fetch envEmptyFetch detailUrlFx "ts").2 0 ∧
      closeCount (api._execute_property_detail_fetch envEmptyFetch detailUrlFx "ts").2 0 ≤ 2 :=
  C1_session_release_bounds envEmptyFetch detailUrlFx "ts" 0 (by decide)

/-- Counterexample for C1 as stated: on the terminal path in which the detail
fetch returns empty HTML, the single opened session has its release invoked
twice, not exactly once (api.py line 134's explicit close followed by the
finally close of line 152). -/
theorem C1_release_twice_counterexample :
    closeCount (api._execute_property_detail_fetch envEmptyFetch detailUrlFx "ts").2 0 = 2 := by
  decide

/-- Claim C2 (corrected): the original claim says a structurally empty card
yields a record whose every string field, the link included, is the sentinel.
What holds is the amended statement: the card is never dropped — every card
of the page yields exactly one record — and every extracted field resolves to
the sentinel, except the link, which is left as the empty string (parsers.py
line 40 initializes it to the empty string and no branch replaces it when the
link node is absent). -/
theorem C2_empty_card_sentinels (now : String) (soup : Node)
    (h : ∀ c ∈ ZillowExactParser.cards soup, emptyCardShape c = true) :
    ZillowExactParser.parse soup now =
      (ZillowExactParser.cards soup).map (fun _ =>
        ({ address := "N/A", price := "N/A", link := "", beds := "N/A", baths := "N/A",
           sqft := "N/A", timestamp := now } : PropertyData)) := by
  unfold ZillowExactParser.parse
  exact List.map_congr_left
    (fun c hc => ZillowExactParser.parseCard_of_emptyShape now c (h c hc))

/-- Witness for C2: the one-empty-card document, every field sentinel but the
link empty. -/
theorem C2_empty_card_sentinels_witness :
    ZillowExactParser.parse c2doc "ts" =
      (ZillowExactParser.cards c2doc).map (fun _ =>
        ({ address := "N/A", price := "N/A", link := "", beds := "N/A", baths := "N/A",
           sqft := "N/A", timestamp := "ts" } : PropertyData)) :=
  C2_empty_card_sentinels "ts" c2doc (by decide)

/-- Counterexample for C2 as stated: the empty card's record has link equal
to the empty string, not the sentinel. -/
theorem C2_link_counterexample :
    (ZillowExactParser.parse c2doc "ts").map PropertyData.link = [""] ∧
      (ZillowExactParser.parse c2doc "ts").map PropertyData.link ≠ ["N/A"] := by
  exact ⟨rfl, by decide⟩

/-- Claim C3 (corrected): the original claim says parse_detail returns the
absent result on empty HTML input.  What holds is the amended statement: on
the empty document parse_detail returns a populated record whose every
extracted field is the sentinel; the absent result arises exactly when an
exception is raised during the pass (the except of parsers.py lines 205-207),
never on the pure data path. -/
theorem C3_parse_detail_empty_input (now : String) :
    ZillowPropertyDetailParser.parse_detail emptyDoc now =
      some { address := "N/A", price := "N/A", link := "N/A", beds := "N/A",
             baths := "N/A", sqft := "N/A", timestamp := now } ∧
    ∀ (raised : Bool) (soup : Node),
      (ZillowPropertyDetailParser.parse_detailE raised soup now = none ↔ raised = true) := by
  refine ⟨rfl, fun raised soup => ?_⟩
  cases raised <;>
    simp [ZillowPropertyDetailParser.parse_detailE, ZillowPropertyDetailParser.parse_detail]

/-- Counterexample for C3 as stated: on the empty document the result is not
the absent result. -/
theorem C3_counterexample :
    ZillowPropertyDetailParser.parse_detail emptyDoc "ts" ≠ none := by
  simp [ZillowPropertyDetailParser.parse_detail]

/-- Claim C4 (corrected): the original claim says a failure inside any single
sub-extraction branch is caught at branch level, degrading only that branch,
and the whole pass returns the absent result only if tree construction
fails.  What holds is the amended statement: the source has no branch-level
guard — the eight branch calls sit inside one try whose except returns the
absent result for the whole pass, so a raise in any one branch yields the
absent result even though the tree built; only the numeric conversions
inside a branch are individually guarded.  When no branch raises, every tree
yields a record assembled from all eight branch extractions. -/
theorem C4_branch_failure_whole_pass
    (raised : ZillowComprehensiveDetailParser.Branch → Bool)
    (soup : Node) (url now : String) :
    ZillowComprehensiveDetailParser.parse soup url now =
      some (ZillowComprehensiveDetailParser.detailOf soup url now) ∧
    (ZillowComprehensiveDetailParser.parseE raised soup url now = none ↔
      ZillowComprehensiveDetailParser.anyRaise raised = true) := by
  refine ⟨rfl, ?_⟩
  cases h : ZillowComprehensiveDetailParser.anyRaise raised <;>
    simp [ZillowComprehensiveDetailParser.parseE, h, ZillowComprehensiveDetailParser.parse]

/-- Counterexample for C4 as stated: the tree (the empty document) builds,
exactly one branch (price details) raises, and the whole pass returns the
absent result instead of a record with only that branch defaulted. -/
theorem C4_counterexample :
    ZillowComprehensiveDetailParser.parseE
      (fun b => b == ZillowComprehensiveDetailParser.Branch.priceDetails)
      emptyDoc "url" "ts" = none := rfl

/-- Claim C5 (confirmed): on HTML without any card-marker node the Listing
Extractor returns the empty sequence (the embedding is total, so no
exception), and on HTML with N card-marker nodes it returns exactly N
records, one per card. -/
theorem C5_card_count (soup : Node) (now : String) :
    (ZillowExactParser.cards soup = [] → ZillowExactParser.parse soup now = []) ∧
    (ZillowExactParser.parse soup now).length = (ZillowExactParser.cards soup).length := by
  constructor
  · intro h
    simp [ZillowExactParser.parse, h]
  · exact ZillowExactParser.parse_length soup now

/-- Claim C6 (confirmed): the scroll loop's only termination condition is a
bottom-reached re-read of the total height equal to the height recorded that
iteration: a run whose every bottom-reached re-read shows growth never halts
within any number of iterations (no iteration cap, no wall-clock bound), and
a run whose first passing stop test is at iteration n has not halted before
n and halts right after it. -/
theorem C6_scroll_termination (env : Nat → ScrollReading) :
    ((∀ n, SmartScrollerBrowser.reachedBottom (env n) = true →
        (env n).newTotal ≠ (env n).total) →
      ∀ k, SmartScrollerBrowser.scrollHaltsWithin env k = false) ∧
    (∀ n, (∀ m, m < n → SmartScrollerBrowser.stopsAt (env m) = false) →
      SmartScrollerBrowser.stopsAt (env n) = true →
      SmartScrollerBrowser.scrollHaltsWithin env n = false ∧
        SmartScrollerBrowser.scrollHaltsWithin env (n + 1) = true) := by
  constructor
  · intro h k
    apply scrollNeverHalts k env
    intro n
    unfold SmartScrollerBrowser.stopsAt
    cases hb : SmartScrollerBrowser.reachedBottom (env n)
    · simp
    · simp [h n hb]
  · intro n hlt hstop
    exact scrollHaltsAtFirstStop n env hlt hstop

/-- Claim C7 (confirmed): fetch_source returns the empty string whenever the
acquisition sequence raises at any point (navigation, element lookup, script
execution, page-source read) — the exception never propagates past this
layer — and returns the final page source on success. -/
theorem C7_fetch_source_no_propagation (env : DriverEnv) :
    (∀ e, SmartScrollerBrowser.acquire env = .error e →
      SmartScrollerBrowser.fetch_source env = "") ∧
    (∀ s, SmartScrollerBrowser.acquire env = .ok s →
      SmartScrollerBrowser.fetch_source env = s) := by
  constructor <;> intro x hx <;> simp [SmartScrollerBrowser.fetch_source, hx]

/-- Claim C8 (confirmed): to_csv_row of every record is exactly the 11
elements [timestamp, price, beds, baths, sqft, address, link, propertyType,
yearBuilt, lotSize, hoa] in that order, so position 1 holds the price,
position 5 the address and positions 7 to 10 the type, year built, lot size
and HOA. -/
theorem C8_to_csv_row_fixed_order (p : PropertyData) :
    p.to_csv_row =
      [p.timestamp, p.price, p.beds, p.baths, p.sqft, p.address, p.link,
       p.property_type, p.year_built, p.lot_size, p.hoa] ∧
    p.to_csv_row.length = 11 ∧
    p.to_csv_row.getD 1 "" = p.price ∧
    p.to_csv_row.getD 5 "" = p.address ∧
    p.to_csv_row.getD 7 "" = p.property_type ∧
    p.to_csv_row.getD 8 "" = p.year_built ∧
    p.to_csv_row.getD 9 "" = p.lot_size ∧
    p.to_csv_row.getD 10 "" = p.hoa :=
  ⟨rfl, rfl, rfl, rfl, rfl, rfl, rfl, rfl⟩

/-- Claim C9 (confirmed): a target that is a URL carrying the detail-page
path marker is routed directly to the detail fetch: the only url acquired
during the run is the target itself — the search-URL construction and the
search-page acquisition never execute. -/
theorem C9_direct_detail_routing (env : OrchEnv) (target now : String)
    (hurl : (pyStartsWith target "http://" || pyStartsWith target "https://") = true)
    (hmarker : containsSub target "/homedetails/" = true)
    (hopen : env.openFails 0 = false) :
    fetchedUrls (api._execute_property_detail_fetch env target now).2 = [target] := by
  unfold api._execute_property_detail_fetch
  simp only [hopen, hurl, Bool.false_eq_true, if_false, if_true]
  split <;> simp [fetchedUrls]

/-- Witness for C9: a concrete detail-page url is fetched directly, the
search fetch never runs. -/
theorem C9_direct_detail_routing_witness :
    fetchedUrls (api._execute_property_detail_fetch envEmptyFetch detailUrlFx "ts").2 =
      [detailUrlFx] :=
  C9_direct_detail_routing envEmptyFetch detailUrlFx "ts" (by decide) (by decide) rfl

/-- Claim C10 (confirmed): the Listing Extractor is deterministic modulo the
construction timestamp: two passes over the same tree under different clock
values yield sequences of the same length that agree on every field once the
timestamp is erased. -/
theorem C10_parse_deterministic_modulo_timestamp (soup : Node) (n1 n2 : String) :
    (ZillowExactParser.parse soup n1).length = (ZillowExactParser.parse soup n2).length ∧
    (ZillowExactParser.parse soup n1).map PropertyData.eraseTimestamp =
      (ZillowExactParser.parse soup n2).map PropertyData.eraseTimestamp := by
  constructor
  · simp [ZillowExactParser.parse]
  · simp only [ZillowExactParser.parse, List.map_map]
    exact List.map_congr_left
      (fun c _ => ZillowExactParser.parseCard_eraseTimestamp c n1 n2)

end ZS
